import Mathlib

/-!
Shallow embedding of `zerver/views/custom_profile_fields.py` (Zulip custom
profile fields): the schema manager (create/update/delete/reorder of field
definitions) and the value manager (update/remove of per-user values).

The view module under `src/` is the authority.  Its collaborators
(`zerver.models`, `zerver.lib.validator`, `zerver.lib.actions`) are not under
`src/`; where an operation's behaviour depends on them they are modelled from
the spec, each such definition carrying a doc comment starting
`Modelled from the spec:`.
-/

/-- A candidate value for a custom profile field: the Python view accepts
`Union[int, str, List[int]]` for `item['value']`. -/
inductive FieldValue where
  | str (s : String)
  | int (n : Int)
  | list (l : List Nat)
deriving DecidableEq, Repr

/-- Kind-specific configuration payload of a field (`field_data`), modelled as
an association list from choice key to display text. -/
abbrev FieldData := List (String × String)

/-- One custom profile field definition (row of the `CustomProfileField`
model; the model itself is not under `src/`, its attributes follow the spec's
FieldDefinition). -/
structure CustomProfileField where
  id : Nat
  realm_id : Nat
  name : String
  hint : String
  field_type : Nat
  field_data : FieldData
  order : Nat
deriving DecidableEq, Repr

/-- One user's stored value for one field (row of `CustomProfileFieldValue`). -/
structure CustomProfileFieldValue where
  field_id : Nat
  user_id : Nat
  value : FieldValue
deriving DecidableEq, Repr

/-- The acting user (`user_profile`): only its id and realm matter here. -/
structure UserRecord where
  id : Nat
  realm_id : Nat
deriving DecidableEq, Repr

/-- Durable storage visible to the view functions. -/
structure DB where
  fields : List CustomProfileField
  values : List CustomProfileFieldValue
  nextId : Nat
deriving DecidableEq, Repr

/-- A notification emitted by `notify_user_update_custom_profile_data`:
the payload is the dict `{id: field_id, value: v}`. -/
structure Notification where
  user_id : Nat
  field_id : Nat
  value : Option FieldValue
deriving DecidableEq, Repr

/-- Result of a view function: `json_success` (possibly with an `id` payload)
or `json_error msg`. -/
inductive JsonResult where
  | success
  | successId (id : Nat)
  | error (msg : String)
deriving DecidableEq, Repr

namespace CustomProfileField

/-- Modelled from the spec: the closed Field Kind enumeration of
`zerver.models.CustomProfileField` (not under `src/`).  The numeric codes are
opaque tags; only their distinctness matters. -/
def SHORT_TEXT : Nat := 1

def LONG_TEXT : Nat := 2

def CHOICE : Nat := 3

def DATE : Nat := 4

def URL : Nat := 5

def USER : Nat := 6

/-- Modelled from the spec: the fixed maximum hint length
(`CustomProfileField.HINT_MAX_LENGTH`, a capped string). -/
def HINT_MAX_LENGTH : Nat := 80

end CustomProfileField

/-- `[i[0] for i in CustomProfileField.FIELD_TYPE_CHOICES]`: the ids of the
registered field kinds.  Modelled from the spec: the closed enumeration. -/
def field_types : List Nat :=
  [CustomProfileField.SHORT_TEXT, CustomProfileField.LONG_TEXT,
   CustomProfileField.CHOICE, CustomProfileField.DATE,
   CustomProfileField.URL, CustomProfileField.USER]

/-- A simple validator: `(var_name, value) -> error | None`. -/
def SimpleValidator := String → FieldValue → Option String

/-- The validator registry and structural validators consumed by the view
module.  Modelled from the spec: `CustomProfileField.FIELD_VALIDATORS`,
`CHOICE_FIELD_VALIDATORS[CHOICE]`, `USER_FIELD_VALIDATORS[USER]` and
`validate_field_data` live outside `src/`; the view's control flow is
parametric in their contents, so they are abstracted here.
`simple_validators` is the `FIELD_VALIDATORS` table keyed by field type. -/
structure ValidatorEnv where
  simple_validators : List (Nat × SimpleValidator)
  choice_validator : String → FieldData → FieldValue → Option String
  user_validator : Nat → List Nat → Bool → Option String
  data_validator : FieldData → Option String

/-- `field_type in validators` / `validators[field_type]`: association-list
lookup into the `FIELD_VALIDATORS` table. -/
def lookupSimple (env : ValidatorEnv) (field_type : Nat) : Option SimpleValidator :=
  match env.simple_validators.find? (fun p => p.1 == field_type) with
  | some p => some p.2
  | none => none

/-- Modelled from the spec: `check_capped_string` from `zerver.lib.validator`
(not under `src/`): rejects a string exceeding the fixed maximum length. -/
def check_capped_string (max_length : Nat) (var_name : String) (s : String) : Option String :=
  if s.length > max_length then
    some (var_name ++ " is longer than " ++ toString max_length ++ ".")
  else
    none

/-- `hint_validator = check_capped_string(CustomProfileField.HINT_MAX_LENGTH)`. -/
def hint_validator : String → String → Option String :=
  check_capped_string CustomProfileField.HINT_MAX_LENGTH

/-- `_('Field id {id} not found.').format(id=field_id)` -/
def field_not_found_msg (field_id : Nat) : String :=
  "Field id " ++ toString field_id ++ " not found."

/-- Modelled from the spec: `try_add_realm_custom_profile_field` from
`zerver.lib.actions` (not under `src/`).  Persists a new definition, appended
at the end of the realm's ordering; the storage layer's uniqueness constraint
on (`realm_id`, `name`) surfaces as an `IntegrityError` (`Except.error`). -/
def try_add_realm_custom_profile_field (db : DB) (realm_id : Nat) (name : String)
    (field_data : FieldData) (field_type : Nat) (hint : String) :
    Except Unit (DB × Nat) :=
  if db.fields.any (fun f => f.realm_id == realm_id && f.name == name) then
    Except.error ()
  else
    let fid := db.nextId
    let ord := (db.fields.filter (fun f => f.realm_id == realm_id)).length
    Except.ok
      ({ db with
          fields := db.fields ++
            [{ id := fid, realm_id := realm_id, name := name, hint := hint,
               field_type := field_type, field_data := field_data, order := ord }],
          nextId := fid + 1 }, fid)

/-- Modelled from the spec: `try_update_realm_custom_profile_field` from
`zerver.lib.actions` (not under `src/`).  Updates name/hint/field_data of an
existing definition; a duplicate name within the realm surfaces as an
`IntegrityError` (`Except.error`). -/
def try_update_realm_custom_profile_field (db : DB) (realm_id : Nat)
    (field : CustomProfileField) (name : String) (hint : String)
    (field_data : FieldData) : Except Unit DB :=
  if db.fields.any (fun f => f.realm_id == realm_id && f.name == name && f.id != field.id) then
    Except.error ()
  else
    Except.ok
      { db with
          fields := db.fields.map (fun f =>
            if f.id == field.id then
              { f with name := name, hint := hint, field_data := field_data }
            else f) }

/-- Modelled from the spec: `do_remove_realm_custom_profile_field` from
`zerver.lib.actions` (not under `src/`).  Deletes the definition and cascades
deletion of all FieldValues referencing it. -/
def do_remove_realm_custom_profile_field (db : DB) (_realm_id : Nat)
    (field : CustomProfileField) : DB :=
  { db with
      fields := db.fields.filter (fun f => f.id != field.id),
      values := db.values.filter (fun v => v.field_id != field.id) }

/-- One item of `update_user_custom_profile_data`'s request body:
`{'id': <field id>, 'value': <value>}`. -/
structure UpdateItem where
  id : Nat
  value : FieldValue
deriving DecidableEq, Repr

/-- Modelled from the spec: `do_update_user_custom_profile_data` from
`zerver.lib.actions` (not under `src/`).  Persists every item (upsert per
(`field_id`, `user_id`)) and emits one notification batch covering the full
items list. -/
def do_update_user_custom_profile_data (db : DB) (user : UserRecord)
    (data : List UpdateItem) : DB × List Notification :=
  (data.foldl (fun d it =>
      if d.values.any (fun v => v.field_id == it.id && v.user_id == user.id) then
        { d with values := d.values.map (fun v =>
            if v.field_id == it.id && v.user_id == user.id then
              { v with value := it.value }
            else v) }
      else
        { d with values := d.values ++ [{ field_id := it.id, user_id := user.id, value := it.value }] })
    db,
   data.map (fun it => { user_id := user.id, field_id := it.id, value := some it.value }))

/-- `cast(List[int], value)`: Python's `cast` is a no-op annotation; the USER
branch hands the raw value to the user validator as a list. -/
def castList : FieldValue → List Nat
  | FieldValue.list l => l
  | _ => []

/-- `if not name.strip()`: the name is blank when it is empty or every
character is whitespace (Python `str.strip` removes leading and trailing
whitespace, so the stripped string is empty exactly then). -/
def blank_name (name : String) : Bool :=
  name.data.all Char.isWhitespace

/-- `create_realm_custom_profile_field` (src lines 33-70): validate name,
hint, field type, the CHOICE minimum-choice rule and the structural
field_data, then persist, translating an `IntegrityError` into the domain
error.  Returns the response together with the resulting storage state. -/
def create_realm_custom_profile_field (env : ValidatorEnv) (db : DB)
    (user : UserRecord) (name : String) (hint : String)
    (field_data : FieldData) (field_type : Nat) : JsonResult × DB :=
  if blank_name name then
    (JsonResult.error "Name cannot be blank.", db)
  else
    match hint_validator "hint" hint with
    | some e => (JsonResult.error e, db)
    | none =>
      if !(field_types.contains field_type) then
        (JsonResult.error "Invalid field type.", db)
      else if field_type == CustomProfileField.CHOICE && field_data.length < 1 then
        (JsonResult.error "Field must have at least one choice.", db)
      else
        match env.data_validator field_data with
        | some e => (JsonResult.error e, db)
        | none =>
          match try_add_realm_custom_profile_field db user.realm_id name field_data field_type hint with
          | Except.ok (db', fid) => (JsonResult.successId fid, db')
          | Except.error () => (JsonResult.error "A field with that name already exists.", db)

/-- `delete_realm_custom_profile_field` (src lines 72-82): look the field up
by id only (`CustomProfileField.objects.get(id=field_id)`, not realm-scoped),
then cascade-remove it. -/
def delete_realm_custom_profile_field (db : DB) (user : UserRecord)
    (field_id : Nat) : JsonResult × DB :=
  match db.fields.find? (fun f => f.id == field_id) with
  | none => (JsonResult.error (field_not_found_msg field_id), db)
  | some field =>
    (JsonResult.success, do_remove_realm_custom_profile_field db user.realm_id field)

/-- `update_realm_custom_profile_field` (src lines 84-114): validate name,
hint and field_data, look the field up scoped to `(realm, field_id)`, then
update, translating an `IntegrityError` into the domain error. -/
def update_realm_custom_profile_field (env : ValidatorEnv) (db : DB)
    (user : UserRecord) (field_id : Nat) (name : String) (hint : String)
    (field_data : FieldData) : JsonResult × DB :=
  if blank_name name then
    (JsonResult.error "Name cannot be blank.", db)
  else
    match hint_validator "hint" hint with
    | some e => (JsonResult.error e, db)
    | none =>
      match env.data_validator field_data with
      | some e => (JsonResult.error e, db)
      | none =>
        match db.fields.find? (fun f => f.realm_id == user.realm_id && f.id == field_id) with
        | none => (JsonResult.error (field_not_found_msg field_id), db)
        | some field =>
          match try_update_realm_custom_profile_field db user.realm_id field name hint field_data with
          | Except.ok db' => (JsonResult.success, db')
          | Except.error () => (JsonResult.error "A field with that name already exists.", db)

/-- `remove_user_custom_profile_data` (src lines 124-142): for each field id in
order, look the field up scoped to the acting user's realm (not-found aborts
the remaining items), delete the user's stored value if present and emit a
`{id, value: None}` notification, else silently continue.  Returns the
response, the resulting storage state and the emitted notifications. -/
def remove_user_custom_profile_data (db : DB) (user : UserRecord) :
    List Nat → JsonResult × DB × List Notification
  | [] => (JsonResult.success, db, [])
  | field_id :: rest =>
    match db.fields.find? (fun f => f.realm_id == user.realm_id && f.id == field_id) with
    | none => (JsonResult.error (field_not_found_msg field_id), db, [])
    | some field =>
      match db.values.find? (fun v => v.field_id == field.id && v.user_id == user.id) with
      | none => remove_user_custom_profile_data db user rest
      | some _ =>
        let db' := { db with
          values := db.values.eraseP (fun v => v.field_id == field.id && v.user_id == user.id) }
        let r := remove_user_custom_profile_data db' user rest
        (r.1, r.2.1, { user_id := user.id, field_id := field_id, value := none } :: r.2.2)

/-- The shape of the validator invocation made by `update_user_custom_profile_data`
for one item: which validator was selected and with which arguments. -/
inductive ValidatorCall where
  | simple (field_type : Nat) (var_name : String) (value : FieldValue)
  | choice (var_name : String) (field_data : FieldData) (value : FieldValue)
  | user (realm_id : Nat) (value : List Nat) (allow_deactivated : Bool)
  | invalid
deriving DecidableEq, Repr

/-- The validator dispatch of `update_user_custom_profile_data` (src lines
158-174): `field_type in FIELD_VALIDATORS` selects the simple validator with
`(var_name, value)`; `CHOICE` selects the choice validator with `(var_name,
field_data, value)`; `USER` selects the user validator with
`(realm_id, value, False)`; anything else is `AssertionError`. -/
def dispatch_validator (env : ValidatorEnv) (realm_id : Nat)
    (field : CustomProfileField) (value : FieldValue) : ValidatorCall :=
  if (lookupSimple env field.field_type).isSome then
    ValidatorCall.simple field.field_type field.name value
  else if field.field_type == CustomProfileField.CHOICE then
    ValidatorCall.choice field.name field.field_data value
  else if field.field_type == CustomProfileField.USER then
    ValidatorCall.user realm_id (castList value) false
  else
    ValidatorCall.invalid

/-- Outcome of running one dispatched validator call: a validation result, or
the `AssertionError` fatal fault. -/
inductive RunResult where
  | result (r : Option String)
  | fatal
deriving DecidableEq, Repr

/-- Run a dispatched validator call against the registry. -/
def run_validator_call (env : ValidatorEnv) : ValidatorCall → RunResult
  | ValidatorCall.simple ft name v =>
    match lookupSimple env ft with
    | some f => RunResult.result (f name v)
    | none => RunResult.fatal
  | ValidatorCall.choice name fd v => RunResult.result (env.choice_validator name fd v)
  | ValidatorCall.user rid l ad => RunResult.result (env.user_validator rid l ad)
  | ValidatorCall.invalid => RunResult.fatal

/-- Outcome of validating one item of the batch. -/
inductive ValOutcome where
  | ok
  | err (msg : String)
  | assertion
deriving DecidableEq, Repr

/-- One iteration of `update_user_custom_profile_data`'s loop (src lines
151-177): look the field up globally by id, dispatch and run its validator. -/
def validate_item (env : ValidatorEnv) (db : DB) (user : UserRecord)
    (item : UpdateItem) : ValOutcome :=
  match db.fields.find? (fun f => f.id == item.id) with
  | none => ValOutcome.err (field_not_found_msg item.id)
  | some field =>
    match run_validator_call env (dispatch_validator env user.realm_id field item.value) with
    | RunResult.fatal => ValOutcome.assertion
    | RunResult.result (some msg) => ValOutcome.err msg
    | RunResult.result none => ValOutcome.ok

/-- The full validation loop: the first failing item decides the outcome. -/
def validate_all (env : ValidatorEnv) (db : DB) (user : UserRecord) :
    List UpdateItem → ValOutcome
  | [] => ValOutcome.ok
  | item :: rest =>
    match validate_item env db user item with
    | ValOutcome.ok => validate_all env db user rest
    | ValOutcome.err msg => ValOutcome.err msg
    | ValOutcome.assertion => ValOutcome.assertion

/-- Result of `update_user_custom_profile_data`: success carries the new
storage state and the notification batch; `json_error` and the
`AssertionError` fault leave storage untouched (both carry the unchanged
state). -/
inductive Outcome where
  | success (db : DB) (notifs : List Notification)
  | jsonError (msg : String) (db : DB)
  | assertionError (db : DB)
deriving DecidableEq, Repr

/-- `update_user_custom_profile_data` (src lines 144-181): validate every item
of the batch in order (field looked up globally by id); the first validation
failure or not-found aborts the whole request with that error; an
unrecognized field type raises `AssertionError`; only when every item
validated is `do_update_user_custom_profile_data` called. -/
def update_user_custom_profile_data (env : ValidatorEnv) (db : DB)
    (user : UserRecord) (data : List UpdateItem) : Outcome :=
  match validate_all env db user data with
  | ValOutcome.err msg => Outcome.jsonError msg db
  | ValOutcome.assertion => Outcome.assertionError db
  | ValOutcome.ok =>
    let r := do_update_user_custom_profile_data db user data
    Outcome.success r.1 r.2

/-- `ft` is one of the registered kinds of the validator dispatch: in the
`FIELD_VALIDATORS` table, or `CHOICE`, or `USER`. -/
def registeredKind (env : ValidatorEnv) (ft : Nat) : Prop :=
  (lookupSimple env ft).isSome = true
    ∨ ft = CustomProfileField.CHOICE ∨ ft = CustomProfileField.USER

instance (env : ValidatorEnv) (ft : Nat) : Decidable (registeredKind env ft) := by
  unfold registeredKind
  infer_instance

/-- A concrete sample registry instantiating the abstract `ValidatorEnv` for
the closed-form witnesses: simple validators for the four simple kinds, a
choice validator checking membership among `field_data`'s keys, a user
validator accepting only ids below 100 when deactivated users are
disallowed. -/
def env₀ : ValidatorEnv where
  simple_validators :=
    [(CustomProfileField.SHORT_TEXT, fun n v =>
        match v with
        | FieldValue.str s => if s.length ≤ 50 then none else some (n ++ " is too long.")
        | _ => some (n ++ " is not a string")),
     (CustomProfileField.LONG_TEXT, fun n v =>
        match v with
        | FieldValue.str _ => none
        | _ => some (n ++ " is not a string")),
     (CustomProfileField.DATE, fun n v =>
        match v with
        | FieldValue.str s => if s.length == 10 then none else some (n ++ " is not a date")
        | _ => some (n ++ " is not a string")),
     (CustomProfileField.URL, fun n v =>
        match v with
        | FieldValue.str _ => none
        | _ => some (n ++ " is not a string"))]
  choice_validator := fun n fd v =>
    match v with
    | FieldValue.str s =>
      if (fd.map Prod.fst).contains s then none else some (n ++ " is not a valid choice")
    | _ => some (n ++ " is not a string")
  user_validator := fun _rid l allow_deactivated =>
    if allow_deactivated || l.all (fun u => u < 100) then none else some "Invalid user ID"
  data_validator := fun fd =>
    if fd.all (fun p => !(p.1 == "")) then none else some "field_data is not valid"

/-- Sample: a SHORT_TEXT field of realm 1. -/
def sampleField1 : CustomProfileField :=
  { id := 1, realm_id := 1, name := "phone", hint := "", field_type := CustomProfileField.SHORT_TEXT,
    field_data := [], order := 0 }

/-- Sample: a CHOICE field of realm 1. -/
def sampleFieldChoice : CustomProfileField :=
  { id := 2, realm_id := 1, name := "team", hint := "", field_type := CustomProfileField.CHOICE,
    field_data := [("1", "Red"), ("2", "Blue")], order := 1 }

/-- Sample: a USER field of realm 1. -/
def sampleFieldUser : CustomProfileField :=
  { id := 3, realm_id := 1, name := "mentor", hint := "", field_type := CustomProfileField.USER,
    field_data := [], order := 2 }

/-- Sample: a field of realm 1 persisted with an unregistered field type. -/
def sampleFieldBad : CustomProfileField :=
  { id := 4, realm_id := 1, name := "weird", hint := "", field_type := 99,
    field_data := [], order := 3 }

/-- Sample: a SHORT_TEXT field of realm 2 (a different realm). -/
def sampleFieldOtherRealm : CustomProfileField :=
  { id := 5, realm_id := 2, name := "other", hint := "", field_type := CustomProfileField.SHORT_TEXT,
    field_data := [], order := 0 }

/-- Sample acting user: id 10 in realm 1. -/
def user₁ : UserRecord := { id := 10, realm_id := 1 }

/-- Sample storage: five fields across two realms, one stored value. -/
def db₁ : DB :=
  { fields := [sampleField1, sampleFieldChoice, sampleFieldUser, sampleFieldBad, sampleFieldOtherRealm],
    values := [{ field_id := 1, user_id := 10, value := FieldValue.str "555" }],
    nextId := 6 }

/-- Sample storage whose fields all carry registered kinds. -/
def db₂ : DB :=
  { fields := [sampleField1, sampleFieldChoice, sampleFieldUser, sampleFieldOtherRealm],
    values := [{ field_id := 1, user_id := 10, value := FieldValue.str "555" }],
    nextId := 6 }

/-- `reorder_realm_custom_profile_fields` (src lines 116-122): the view
delegates the whole operation to `try_reorder_realm_custom_profile_fields`
(in `zerver.lib.actions`, not under `src/`) and returns `json_success` when it
does not raise.  Whether a duplicate or cross-realm id is rejected is decided
entirely by that missing function, whose behaviour the spec leaves open, so
it is kept as a parameter here. -/
def reorder_realm_custom_profile_fields
    (try_reorder : DB → Nat → List Nat → Except String DB)
    (db : DB) (user : UserRecord) (order : List Nat) : JsonResult × DB :=
  match try_reorder db user.realm_id order with
  | Except.ok db' => (JsonResult.success, db')
  | Except.error e => (JsonResult.error e, db)

/-- An 81-character hint, one character over the cap. -/
def longHint : String := String.mk (List.replicate 81 'a')

/-- C1: in `update_user_custom_profile_data`, any validation failure (including
a nonexistent field id) makes the operation return that error with storage
untouched — no item of the batch is persisted; persistence via
`do_update_user_custom_profile_data` happens exactly when every item of the
batch validated. -/
theorem update_user_all_or_nothing (env : ValidatorEnv) (db : DB)
    (user : UserRecord) (data : List UpdateItem) :
    (∀ msg dbE, update_user_custom_profile_data env db user data = Outcome.jsonError msg dbE →
      dbE = db)
    ∧ (∀ msg, validate_all env db user data = ValOutcome.err msg →
      update_user_custom_profile_data env db user data = Outcome.jsonError msg db)
    ∧ (∀ dbS ns, update_user_custom_profile_data env db user data = Outcome.success dbS ns →
      validate_all env db user data = ValOutcome.ok
        ∧ dbS = (do_update_user_custom_profile_data db user data).1
        ∧ ns = (do_update_user_custom_profile_data db user data).2) := by
  unfold update_user_custom_profile_data
  cases h : validate_all env db user data with
  | ok =>
    refine ⟨?_, ?_, ?_⟩
    · intro msg dbE hc
      simp at hc
    · intro msg hc
      simp at hc
    · intro dbS ns hc
      simp at hc
      exact ⟨rfl, hc.1.symm, hc.2.symm⟩
  | err m =>
    refine ⟨?_, ?_, ?_⟩
    · intro msg dbE hc
      simp at hc
      exact hc.2.symm
    · intro msg hc
      simp at hc
      subst hc
      rfl
    · intro dbS ns hc
      simp at hc
  | assertion =>
    refine ⟨?_, ?_, ?_⟩
    · intro msg dbE hc
      simp at hc
    · intro msg hc
      simp at hc
    · intro dbS ns hc
      simp at hc

/-- Closed instance of `update_user_all_or_nothing`: a two-item batch whose
second item carries an invalid choice value returns that validation error
with storage unchanged. -/
theorem update_user_all_or_nothing_witness :
    update_user_custom_profile_data env₀ db₂ user₁
      [{ id := 1, value := FieldValue.str "555-0100" }, { id := 2, value := FieldValue.str "3" }]
      = Outcome.jsonError "team is not a valid choice" db₂ :=
  (update_user_all_or_nothing env₀ db₂ user₁
      [{ id := 1, value := FieldValue.str "555-0100" }, { id := 2, value := FieldValue.str "3" }]).2.1
    "team is not a valid choice" (by rfl)

/-- C5: `remove_user_custom_profile_data` processes ids in order; a field id
not found in the acting user's realm returns the not-found error naming that
id and aborts the remaining items; a found field with a stored value for the
user deletes that value and emits a `{id, value: None}` notification before
continuing; a found field with no stored value silently continues with no
deletion and no notification. -/
theorem remove_user_data_step (db : DB) (user : UserRecord) (fid : Nat)
    (rest : List Nat) :
    (db.fields.find? (fun f => f.realm_id == user.realm_id && f.id == fid) = none →
      remove_user_custom_profile_data db user (fid :: rest)
        = (JsonResult.error (field_not_found_msg fid), db, []))
    ∧ (∀ field v,
      db.fields.find? (fun f => f.realm_id == user.realm_id && f.id == fid) = some field →
      db.values.find? (fun w => w.field_id == field.id && w.user_id == user.id) = some v →
      remove_user_custom_profile_data db user (fid :: rest)
        = ((remove_user_custom_profile_data
              { db with values := db.values.eraseP (fun w => w.field_id == field.id && w.user_id == user.id) } user rest).1,
           (remove_user_custom_profile_data
              { db with values := db.values.eraseP (fun w => w.field_id == field.id && w.user_id == user.id) } user rest).2.1,
           { user_id := user.id, field_id := fid, value := none }
             :: (remove_user_custom_profile_data
                  { db with values := db.values.eraseP (fun w => w.field_id == field.id && w.user_id == user.id) } user rest).2.2))
    ∧ (∀ field,
      db.fields.find? (fun f => f.realm_id == user.realm_id && f.id == fid) = some field →
      db.values.find? (fun w => w.field_id == field.id && w.user_id == user.id) = none →
      remove_user_custom_profile_data db user (fid :: rest)
        = remove_user_custom_profile_data db user rest) := by
  refine ⟨?_, ?_, ?_⟩
  · intro h
    simp [remove_user_custom_profile_data, h]
  · intro field v h1 h2
    simp [remove_user_custom_profile_data, h1, h2]
  · intro field h1 h2
    simp [remove_user_custom_profile_data, h1, h2]

/-- Closed instance of `remove_user_data_step`: a cross-realm id aborts with
the not-found error; a present value is deleted with a `value: None`
notification; an absent value is a silent no-op. -/
theorem remove_user_data_step_witness :
    remove_user_custom_profile_data db₁ user₁ [5, 1]
      = (JsonResult.error (field_not_found_msg 5), db₁, [])
    ∧ remove_user_custom_profile_data db₁ user₁ [1]
      = (JsonResult.success, { db₁ with values := [] },
         [{ user_id := 10, field_id := 1, value := none }])
    ∧ remove_user_custom_profile_data db₁ user₁ [2]
      = (JsonResult.success, db₁, []) := by
  refine ⟨(remove_user_data_step db₁ user₁ 5 [1]).1 rfl, ?_, ?_⟩
  · have h := (remove_user_data_step db₁ user₁ 1 []).2.1 sampleField1
      { field_id := 1, user_id := 10, value := FieldValue.str "555" } rfl rfl
    rw [h]
    rfl
  · have h := (remove_user_data_step db₁ user₁ 2 []).2.2 sampleFieldChoice rfl rfl
    rw [h]
    rfl

/-- C6: the validator dispatch of `update_user_custom_profile_data` selects by
the field's `field_type` and invokes the kind-appropriate shape: a simple kind
(in `FIELD_VALIDATORS`) receives `(field_name, value)`; `CHOICE` receives
`(field_name, field_data, value)` with the field's current `field_data`;
`USER` receives `(realm_id, value_list, allow_deactivated)` with
`allow_deactivated = false`. -/
theorem update_user_validator_dispatch (env : ValidatorEnv) (realm_id : Nat)
    (field : CustomProfileField) (value : FieldValue) :
    ((lookupSimple env field.field_type).isSome = true →
      dispatch_validator env realm_id field value
        = ValidatorCall.simple field.field_type field.name value)
    ∧ (lookupSimple env field.field_type = none →
       field.field_type = CustomProfileField.CHOICE →
      dispatch_validator env realm_id field value
        = ValidatorCall.choice field.name field.field_data value)
    ∧ (lookupSimple env field.field_type = none →
       field.field_type = CustomProfileField.USER →
      dispatch_validator env realm_id field value
        = ValidatorCall.user realm_id (castList value) false) := by
  refine ⟨?_, ?_, ?_⟩
  · intro h
    simp [dispatch_validator, h]
  · intro h hc
    rw [hc] at h
    simp [dispatch_validator, hc, h]
  · intro h hu
    rw [hu] at h
    simp only [CustomProfileField.USER] at h
    simp [dispatch_validator, hu, h, CustomProfileField.USER, CustomProfileField.CHOICE]

/-- Closed instance of `update_user_validator_dispatch`: the three dispatch
shapes at a SHORT_TEXT, a CHOICE and a USER field of the sample registry. -/
theorem update_user_validator_dispatch_witness :
    dispatch_validator env₀ 1 sampleField1 (FieldValue.str "x")
      = ValidatorCall.simple CustomProfileField.SHORT_TEXT "phone" (FieldValue.str "x")
    ∧ dispatch_validator env₀ 1 sampleFieldChoice (FieldValue.str "1")
      = ValidatorCall.choice "team" [("1", "Red"), ("2", "Blue")] (FieldValue.str "1")
    ∧ dispatch_validator env₀ 1 sampleFieldUser (FieldValue.list [10])
      = ValidatorCall.user 1 [10] false :=
  ⟨(update_user_validator_dispatch env₀ 1 sampleField1 (FieldValue.str "x")).1 rfl,
   (update_user_validator_dispatch env₀ 1 sampleFieldChoice (FieldValue.str "1")).2.1 rfl rfl,
   (update_user_validator_dispatch env₀ 1 sampleFieldUser (FieldValue.list [10])).2.2 rfl rfl⟩

/-- A registered kind never makes the dispatched validator call fatal. -/
theorem run_dispatch_not_fatal (env : ValidatorEnv) (rid : Nat)
    (field : CustomProfileField) (v : FieldValue)
    (h : registeredKind env field.field_type) :
    run_validator_call env (dispatch_validator env rid field v) ≠ RunResult.fatal := by
  unfold dispatch_validator
  by_cases hs : (lookupSimple env field.field_type).isSome = true
  · obtain ⟨f, hf⟩ := Option.isSome_iff_exists.mp hs
    simp [hs, run_validator_call, hf]
  · rcases h with h1 | h2 | h3
    · exact absurd h1 hs
    · rw [h2] at hs
      simp [hs, h2, run_validator_call]
    · rw [h3] at hs
      simp only [CustomProfileField.USER] at hs
      simp [hs, h3, run_validator_call, CustomProfileField.USER, CustomProfileField.CHOICE]

/-- If every stored field carries a registered kind, no single item's
validation hits the `AssertionError` branch. -/
theorem validate_item_no_assertion (env : ValidatorEnv) (db : DB)
    (user : UserRecord) (item : UpdateItem)
    (hreg : ∀ f ∈ db.fields, registeredKind env f.field_type) :
    validate_item env db user item ≠ ValOutcome.assertion := by
  unfold validate_item
  cases hf : db.fields.find? (fun f => f.id == item.id) with
  | none => simp
  | some field =>
    have hmem : field ∈ db.fields := List.mem_of_find?_eq_some hf
    have hnf := run_dispatch_not_fatal env user.realm_id field item.value (hreg field hmem)
    cases hr : run_validator_call env (dispatch_validator env user.realm_id field item.value) with
    | fatal => exact absurd hr hnf
    | result r => cases r <;> simp [hr]

/-- If every stored field carries a registered kind, the whole validation
loop never hits the `AssertionError` branch. -/
theorem validate_all_no_assertion (env : ValidatorEnv) (db : DB)
    (user : UserRecord)
    (hreg : ∀ f ∈ db.fields, registeredKind env f.field_type) :
    ∀ data : List UpdateItem, validate_all env db user data ≠ ValOutcome.assertion := by
  intro data
  induction data with
  | nil => simp [validate_all]
  | cons item rest ih =>
    unfold validate_all
    cases hv : validate_item env db user item with
    | ok => simpa using ih
    | err m => simp
    | assertion => exact absurd hv (validate_item_no_assertion env db user item hreg)

/-- C3: in `update_user_custom_profile_data`'s validator dispatch, a stored
field whose `field_type` is in none of `FIELD_VALIDATORS`, `CHOICE` and
`USER` aborts the operation with the fatal `AssertionError` (not a silent
skip); when every stored field's type is a registered kind, that branch is
unreachable. -/
theorem update_user_unregistered_type_asserts (env : ValidatorEnv) (db : DB)
    (user : UserRecord) :
    (∀ (item : UpdateItem) (field : CustomProfileField),
      db.fields.find? (fun f => f.id == item.id) = some field →
      lookupSimple env field.field_type = none →
      field.field_type ≠ CustomProfileField.CHOICE →
      field.field_type ≠ CustomProfileField.USER →
      update_user_custom_profile_data env db user [item] = Outcome.assertionError db)
    ∧ (∀ data : List UpdateItem,
      (∀ f ∈ db.fields, registeredKind env f.field_type) →
      ∀ dbA : DB, update_user_custom_profile_data env db user data ≠ Outcome.assertionError dbA) := by
  constructor
  · intro item field hf hl hc hu
    have hitem : validate_item env db user item = ValOutcome.assertion := by
      have hd : dispatch_validator env user.realm_id field item.value = ValidatorCall.invalid := by
        unfold dispatch_validator
        simp [hl, hc, hu]
      simp [validate_item, hf, hd, run_validator_call]
    have hall : validate_all env db user [item] = ValOutcome.assertion := by
      unfold validate_all
      rw [hitem]
    unfold update_user_custom_profile_data
    rw [hall]
  · intro data hreg dbA
    have hna := validate_all_no_assertion env db user hreg data
    unfold update_user_custom_profile_data
    cases hv : validate_all env db user data with
    | ok => simp
    | err m => simp
    | assertion => exact absurd hv hna

/-- Closed instance of `update_user_unregistered_type_asserts`: the sample
field stored with type 99 trips the `AssertionError`, while a registry-clean
storage never does. -/
theorem update_user_unregistered_type_asserts_witness :
    update_user_custom_profile_data env₀ db₁ user₁ [{ id := 4, value := FieldValue.str "x" }]
      = Outcome.assertionError db₁
    ∧ update_user_custom_profile_data env₀ db₂ user₁ [{ id := 1, value := FieldValue.str "y" }]
      ≠ Outcome.assertionError db₂ :=
  ⟨(update_user_unregistered_type_asserts env₀ db₁ user₁).1
      { id := 4, value := FieldValue.str "x" } sampleFieldBad rfl rfl (by decide) (by decide),
   (update_user_unregistered_type_asserts env₀ db₂ user₁).2
      [{ id := 1, value := FieldValue.str "y" }] (by decide) db₂⟩

/-- C4: in both `create_realm_custom_profile_field` and
`update_realm_custom_profile_field`, once the input validations pass, a
storage-level uniqueness violation (`IntegrityError`) is translated into the
domain error "A field with that name already exists." with storage unchanged;
the raw storage fault is not propagated. -/
theorem integrity_error_translated (env : ValidatorEnv) (db : DB)
    (user : UserRecord) (name hint : String) (fd : FieldData) (ft fid : Nat) :
    (blank_name name = false →
     hint_validator "hint" hint = none →
     ft ∈ field_types →
     (ft = CustomProfileField.CHOICE → fd ≠ []) →
     env.data_validator fd = none →
     try_add_realm_custom_profile_field db user.realm_id name fd ft hint = Except.error () →
     create_realm_custom_profile_field env db user name hint fd ft
       = (JsonResult.error "A field with that name already exists.", db))
    ∧ (∀ field : CustomProfileField,
     blank_name name = false →
     hint_validator "hint" hint = none →
     env.data_validator fd = none →
     db.fields.find? (fun f => f.realm_id == user.realm_id && f.id == fid) = some field →
     try_update_realm_custom_profile_field db user.realm_id field name hint fd = Except.error () →
     update_realm_custom_profile_field env db user fid name hint fd
       = (JsonResult.error "A field with that name already exists.", db)) := by
  constructor
  · intro hn hh hft hch hdv hadd
    have hne : ¬(ft = CustomProfileField.CHOICE ∧ fd = []) := fun h => hch h.1 h.2
    unfold create_realm_custom_profile_field
    simp [hn, hh, hft, hne, hdv, hadd]
  · intro field hn hh hdv hfind hupd
    unfold update_realm_custom_profile_field
    simp [hn, hh, hdv, hfind, hupd]

/-- Closed instance of `integrity_error_translated`: creating a second
"phone" field in realm 1, and renaming the "team" field to "phone", both
return the domain conflict error with storage unchanged. -/
theorem integrity_error_translated_witness :
    create_realm_custom_profile_field env₀ db₁ user₁ "phone" "" [] CustomProfileField.SHORT_TEXT
      = (JsonResult.error "A field with that name already exists.", db₁)
    ∧ update_realm_custom_profile_field env₀ db₁ user₁ 2 "phone" "" [("1", "Red"), ("2", "Blue")]
      = (JsonResult.error "A field with that name already exists.", db₁) :=
  ⟨(integrity_error_translated env₀ db₁ user₁ "phone" "" [] CustomProfileField.SHORT_TEXT 0).1
      (by decide) rfl (by decide) (by decide) rfl rfl,
   (integrity_error_translated env₀ db₁ user₁ "phone" "" [("1", "Red"), ("2", "Blue")] 0 2).2
      sampleFieldChoice (by decide) rfl rfl rfl rfl⟩

/-- C7 counterexample: with `field_type = CHOICE` and empty `field_data` but a
blank name, `create_realm_custom_profile_field` returns "Name cannot be
blank.", not "Field must have at least one choice." — so the specific choice
error is not returned regardless of the other inputs. -/
theorem create_choice_empty_counterexample :
    create_realm_custom_profile_field env₀ db₁ user₁ "" "" [] CustomProfileField.CHOICE
      = (JsonResult.error "Name cannot be blank.", db₁)
    ∧ JsonResult.error "Name cannot be blank."
        ≠ JsonResult.error "Field must have at least one choice." := by
  constructor
  · rfl
  · decide

/-- C7 (amended): a `create_realm_custom_profile_field` call with
`field_type = CHOICE` and empty `field_data` always returns a validation
error with no field persisted, regardless of the other inputs; whenever the
name and hint validations pass, that error is "Field must have at least one
choice." -/
theorem create_choice_empty_rejected (env : ValidatorEnv) (db : DB)
    (user : UserRecord) (name hint : String) (ft : Nat)
    (hft : ft = CustomProfileField.CHOICE) :
    ((create_realm_custom_profile_field env db user name hint [] ft).2 = db
      ∧ ∃ msg, (create_realm_custom_profile_field env db user name hint [] ft).1
          = JsonResult.error msg)
    ∧ (blank_name name = false → hint_validator "hint" hint = none →
      create_realm_custom_profile_field env db user name hint [] ft
        = (JsonResult.error "Field must have at least one choice.", db)) := by
  subst hft
  constructor
  · unfold create_realm_custom_profile_field
    by_cases hb : blank_name name = true
    · simp [hb]
    · simp only [Bool.not_eq_true] at hb
      cases hh : hint_validator "hint" hint with
      | some e => simp [hb, hh]
      | none =>
        simp [hb, hh, field_types, CustomProfileField.CHOICE, CustomProfileField.SHORT_TEXT,
              CustomProfileField.LONG_TEXT, CustomProfileField.DATE, CustomProfileField.URL,
              CustomProfileField.USER]
  · intro hb hh
    unfold create_realm_custom_profile_field
    simp [hb, hh, field_types, CustomProfileField.CHOICE, CustomProfileField.SHORT_TEXT,
          CustomProfileField.LONG_TEXT, CustomProfileField.DATE, CustomProfileField.URL,
          CustomProfileField.USER]

/-- Closed instance of `create_choice_empty_rejected`: with a valid name and
hint the error is the minimum-choice message and storage is unchanged. -/
theorem create_choice_empty_rejected_witness :
    create_realm_custom_profile_field env₀ db₁ user₁ "color" "" [] CustomProfileField.CHOICE
      = (JsonResult.error "Field must have at least one choice.", db₁) :=
  (create_choice_empty_rejected env₀ db₁ user₁ "color" "" CustomProfileField.CHOICE rfl).2
    (by decide) rfl

/-- C8: both `create_realm_custom_profile_field` and
`update_realm_custom_profile_field` reject a blank or whitespace-only name
with "Name cannot be blank." and reject a hint refused by the capped-string
validator with that validator's error; in every such case the operation
returns with storage unchanged — before any persistence call.  A hint longer
than the fixed maximum is indeed refused by the capped-string validator. -/
theorem blank_name_and_long_hint_rejected (env : ValidatorEnv) (db : DB)
    (user : UserRecord) (name hint : String) (fd : FieldData) (ft fid : Nat) :
    (blank_name name = true →
      create_realm_custom_profile_field env db user name hint fd ft
        = (JsonResult.error "Name cannot be blank.", db)
      ∧ update_realm_custom_profile_field env db user fid name hint fd
        = (JsonResult.error "Name cannot be blank.", db))
    ∧ (∀ e, blank_name name = false → hint_validator "hint" hint = some e →
      create_realm_custom_profile_field env db user name hint fd ft
        = (JsonResult.error e, db)
      ∧ update_realm_custom_profile_field env db user fid name hint fd
        = (JsonResult.error e, db))
    ∧ (hint.length > CustomProfileField.HINT_MAX_LENGTH →
      ∃ e, hint_validator "hint" hint = some e) := by
  refine ⟨?_, ?_, ?_⟩
  · intro hb
    refine ⟨?_, ?_⟩
    · unfold create_realm_custom_profile_field
      simp [hb]
    · unfold update_realm_custom_profile_field
      simp [hb]
  · intro e hb hh
    refine ⟨?_, ?_⟩
    · unfold create_realm_custom_profile_field
      simp [hb, hh]
    · unfold update_realm_custom_profile_field
      simp [hb, hh]
  · intro hlong
    unfold hint_validator check_capped_string
    simp [hlong]

/-- Closed instance of `blank_name_and_long_hint_rejected`: a whitespace-only
name is rejected by create and update, and an over-length hint is rejected by
the capped-string validator, storage unchanged each time. -/
theorem blank_name_and_long_hint_rejected_witness :
    create_realm_custom_profile_field env₀ db₁ user₁ "   " "" [] CustomProfileField.SHORT_TEXT
      = (JsonResult.error "Name cannot be blank.", db₁)
    ∧ update_realm_custom_profile_field env₀ db₁ user₁ 1 "   " "" []
      = (JsonResult.error "Name cannot be blank.", db₁)
    ∧ create_realm_custom_profile_field env₀ db₁ user₁ "ok" longHint [] CustomProfileField.SHORT_TEXT
      = (JsonResult.error "hint is longer than 80.", db₁) := by
  have h1 := (blank_name_and_long_hint_rejected env₀ db₁ user₁ "   " "" [] CustomProfileField.SHORT_TEXT 1).1
    (by decide)
  have h2 := (blank_name_and_long_hint_rejected env₀ db₁ user₁ "ok" longHint [] CustomProfileField.SHORT_TEXT 1).2.1
    "hint is longer than 80." (by decide) (by rfl)
  exact ⟨h1.1, h1.2, h2.1⟩

/-- C9: `delete_realm_custom_profile_field` looks the field up by id only —
not-found exactly when no field with that id exists in any realm, and a field
of a different realm is found and handed to the cascade-removal path
`do_remove_realm_custom_profile_field` — whereas
`update_realm_custom_profile_field`'s lookup is scoped to
`(realm, field_id)` and returns not-found for such a cross-realm id. -/
theorem delete_lookup_unscoped (env : ValidatorEnv) (db : DB)
    (user : UserRecord) (fid : Nat) :
    (db.fields.find? (fun f => f.id == fid) = none →
      delete_realm_custom_profile_field db user fid
        = (JsonResult.error (field_not_found_msg fid), db))
    ∧ (∀ field, db.fields.find? (fun f => f.id == fid) = some field →
      delete_realm_custom_profile_field db user fid
        = (JsonResult.success, do_remove_realm_custom_profile_field db user.realm_id field))
    ∧ (∀ name hint fd, blank_name name = false →
      hint_validator "hint" hint = none →
      env.data_validator fd = none →
      db.fields.find? (fun f => f.realm_id == user.realm_id && f.id == fid) = none →
      update_realm_custom_profile_field env db user fid name hint fd
        = (JsonResult.error (field_not_found_msg fid), db)) := by
  refine ⟨?_, ?_, ?_⟩
  · intro h
    simp [delete_realm_custom_profile_field, h]
  · intro field h
    simp [delete_realm_custom_profile_field, h]
  · intro name hint fd hb hh hdv hfind
    unfold update_realm_custom_profile_field
    simp [hb, hh, hdv, hfind]

/-- Closed instance of `delete_lookup_unscoped`: realm-1 admin deleting
field 5 of realm 2 reaches cascade removal, while updating it is not-found;
a wholly absent id 99 is not-found for delete. -/
theorem delete_lookup_unscoped_witness :
    delete_realm_custom_profile_field db₁ user₁ 5
      = (JsonResult.success, do_remove_realm_custom_profile_field db₁ 1 sampleFieldOtherRealm)
    ∧ update_realm_custom_profile_field env₀ db₁ user₁ 5 "x" "" []
      = (JsonResult.error (field_not_found_msg 5), db₁)
    ∧ delete_realm_custom_profile_field db₁ user₁ 99
      = (JsonResult.error (field_not_found_msg 99), db₁) :=
  ⟨(delete_lookup_unscoped env₀ db₁ user₁ 5).2.1 sampleFieldOtherRealm rfl,
   (delete_lookup_unscoped env₀ db₁ user₁ 5).2.2 "x" "" [] (by decide) rfl rfl rfl,
   (delete_lookup_unscoped env₀ db₁ user₁ 99).1 rfl⟩

/-- C10: `remove_user_custom_profile_data`'s field lookup is scoped to the
acting user's realm — a field id with no match in that realm returns the
not-found error and aborts the batch — whereas
`update_user_custom_profile_data`'s per-item lookup is global by id, so a
field found globally proceeds to validator dispatch. -/
theorem remove_scoped_update_unscoped (env : ValidatorEnv) (db : DB)
    (user : UserRecord) (fid : Nat) (rest : List Nat) (v : FieldValue) :
    (db.fields.find? (fun f => f.realm_id == user.realm_id && f.id == fid) = none →
      remove_user_custom_profile_data db user (fid :: rest)
        = (JsonResult.error (field_not_found_msg fid), db, []))
    ∧ (∀ field, db.fields.find? (fun f => f.id == fid) = some field →
      validate_item env db user { id := fid, value := v }
        = (match run_validator_call env (dispatch_validator env user.realm_id field v) with
           | RunResult.fatal => ValOutcome.assertion
           | RunResult.result (some msg) => ValOutcome.err msg
           | RunResult.result none => ValOutcome.ok)) := by
  refine ⟨?_, ?_⟩
  · intro h
    simp [remove_user_custom_profile_data, h]
  · intro field h
    simp [validate_item, h]

/-- Closed instance of `remove_scoped_update_unscoped`: for field 5 (realm 2)
and a realm-1 user, removal is not-found and aborts, while the update path's
global lookup finds the field and its validator accepts the value. -/
theorem remove_scoped_update_unscoped_witness :
    remove_user_custom_profile_data db₁ user₁ [5]
      = (JsonResult.error (field_not_found_msg 5), db₁, [])
    ∧ validate_item env₀ db₁ user₁ { id := 5, value := FieldValue.str "hello" }
      = ValOutcome.ok := by
  refine ⟨(remove_scoped_update_unscoped env₀ db₁ user₁ 5 [] (FieldValue.str "hello")).1 rfl, ?_⟩
  have h := (remove_scoped_update_unscoped env₀ db₁ user₁ 5 []
    (FieldValue.str "hello")).2 sampleFieldOtherRealm rfl
  rw [h]
  rfl
